import Mathlib

/-!
Verification of `codes/models/audio/music/transformer_diffusion12.py`
(TransformerDiffusion and its wrapper variants) against its natural-language
specification.  Tensor-level submodules whose definitions live outside this
file's scope (the x-transformers `Encoder`, `Attention`, `conv_nd`,
`zero_module`, `MusicQuantizer2` internals) are embedded abstractly or, where
flagged, modelled from the spec.
-/

namespace TD12

/-! ## Value-level model of `TransformerDiffusion.forward` (lines 201-233)

Tensors are an abstract type `α`; every parameterized submodule of the model
becomes an opaque-to-the-theorems function field of `DiffModel`.  The control
flow (argument validation, branch selection, the unused-parameter bookkeeping)
is embedded exactly. -/

/-- Errors `forward` can raise: the explicit `assert` on line 203, and the
`TypeError` the conditioning path raises when `codes` is `None` (calling
`input_converter(None)` inside `timestep_independent`). -/
inductive FwdError
  | assertionError
  | typeError
  deriving DecidableEq, Repr

/-- The parameterized submodules and configuration of `TransformerDiffusion`
relevant to `forward`.  Each function field stands for the application of the
correspondingly named `nn.Module` of the source. -/
structure DiffModel (α : Type) where
  ar_prior : Bool
  training : Bool
  unconditioned_percentage : ℚ
  /-- `self.unconditioned_embedding`, a learned parameter (line 156). -/
  unconditioned_embedding : α
  /-- `self.unconditioned_embedding.repeat(b, l, 1)` (line 207). -/
  repeatUncond : ℕ → ℕ → α
  /-- `self.ar_input` (line 128). -/
  ar_input : α → α
  /-- `self.ar_prior_intg` (line 129). -/
  ar_prior_intg : α → α
  /-- `self.input_converter` (line 142). -/
  input_converter : α → α
  /-- `self.code_converter` (line 143). -/
  code_converter : α → α
  /-- the `torch.where` masking of lines 193-196, randomness included. -/
  uncondMask : α → α
  /-- `F.interpolate(..., size=n, mode=nearest)` of line 198. -/
  interpolateNearest : α → ℕ → α
  /-- `timestep_embedding(timesteps, self.time_embed_dim)` (line 216). -/
  timestepEmbedding : α → α
  /-- `self.time_embed` (line 119). -/
  time_embed : α → α
  /-- `self.inp_block` (line 117). -/
  inp_block : α → α
  /-- `.permute(0,2,1)` (line 217). -/
  permute021 : α → α
  /-- `self.rotary_embeddings(n, device)` (line 219). -/
  rotary_embeddings : ℕ → α
  /-- `torch.cat([x, code_emb], dim=-1)` (line 220). -/
  cat2 : α → α → α
  /-- `self.intg` (line 158). -/
  intg : α → α
  /-- the loop over `self.layers` (lines 221-222): `(x, blk_emb, rotary)`. -/
  layersF : α → α → α → α
  /-- `x.float().permute(0,2,1)` (line 224). -/
  floatPermute : α → α
  /-- `self.out` (lines 161-165). -/
  outF : α → α
  /-- `p.mean()` (line 230). -/
  mean : α → α
  /-- tensor addition (lines 230-231). -/
  add : α → α → α
  /-- `(·) * 0` (line 231). -/
  mulZeroScalar : α → α
  /-- the Python int `0` initializing `extraneous_addition` (line 228). -/
  zeroScalar : α
  /-- `t.shape[0]` (batch). -/
  shape0 : α → ℕ
  /-- `t.shape[1]`. -/
  shape1 : α → ℕ
  /-- `t.shape[-1]` (sequence length for a (b, c, l) tensor). -/
  shapeLast : α → ℕ

/-- `TransformerDiffusion.timestep_independent` (lines 187-199), at the level
of abstract tensors. -/
def timestepIndependent {α : Type} (M : DiffModel α) (prior : α)
    (expected_seq_len : ℕ) : α :=
  let code_emb := if M.ar_prior then M.ar_input prior else M.input_converter prior
  let code_emb := if M.ar_prior then M.ar_prior_intg code_emb else M.code_converter code_emb
  let code_emb :=
    if M.training = true ∧ 0 < M.unconditioned_percentage then M.uncondMask code_emb
    else code_emb
  M.interpolateNearest code_emb expected_seq_len

/-- `TransformerDiffusion.forward` (lines 201-233).  The `assert` of
lines 202-203 raises exactly when `precomputed_code_embeddings` is provided
together with `codes` or `conditioning_input`; the pair returned by the
conditioning branch is `(code_emb, unused_params)` of lines 205-213. -/
def forward {α : Type} (M : DiffModel α) (x timesteps : α)
    (codes conditioning_input precomputed_code_embeddings : Option α)
    (conditioning_free : Bool) : Except FwdError α :=
  if precomputed_code_embeddings.isSome &&
      !(codes.isNone && conditioning_input.isNone) then
    .error .assertionError
  else
    let branch : Except FwdError (α × List α) :=
      if conditioning_free then
        .ok (M.repeatUncond (M.shape0 x) (M.shapeLast x), [])
      else
        match precomputed_code_embeddings with
        | some p => .ok (p, [M.unconditioned_embedding])
        | none =>
          match codes with
          | some c => .ok (timestepIndependent M c (M.shapeLast x), [M.unconditioned_embedding])
          | none => .error .typeError
    match branch with
    | .error e => .error e
    | .ok (code_emb, unused_params) =>
      let blk_emb := M.time_embed (M.timestepEmbedding timesteps)
      let xp := M.permute021 (M.inp_block x)
      let rotary_pos_emb := M.rotary_embeddings (M.shape1 xp)
      let xi := M.intg (M.cat2 xp code_emb)
      let xl := M.layersF xi blk_emb rotary_pos_emb
      let out := M.outF (M.floatPermute xl)
      let extraneous_addition :=
        unused_params.foldl (fun a p => M.add a (M.mean p)) M.zeroScalar
      .ok (M.add out (M.mulZeroScalar extraneous_addition))

/-- A concrete instantiation of `DiffModel` over `ℤ`, used to exhibit concrete
runs of `forward`. -/
def trivialModel : DiffModel ℤ where
  ar_prior := false
  training := false
  unconditioned_percentage := 1/10
  unconditioned_embedding := 0
  repeatUncond := fun _ _ => 0
  ar_input := id
  ar_prior_intg := id
  input_converter := id
  code_converter := id
  uncondMask := id
  interpolateNearest := fun a _ => a
  timestepEmbedding := id
  time_embed := id
  inp_block := id
  permute021 := id
  rotary_embeddings := fun _ => 0
  cat2 := fun a b => a + b
  intg := id
  layersF := fun a _ _ => a
  floatPermute := id
  outF := id
  mean := id
  add := fun a b => a + b
  mulZeroScalar := fun _ => 0
  zeroScalar := 0
  shape0 := fun _ => 1
  shape1 := fun _ => 1
  shapeLast := fun _ => 1

/-! ## Parameter participation in the computation graph of `forward`

For the distributed-training (DDP) claims, what matters is which parameters
appear in the autograd graph of the returned tensor, including those attached
through the zero-weighted `extraneous_addition * 0` term of lines 227-231. -/

/-- Names for the parameterized submodules of `TransformerDiffusion`. -/
inductive ParamRef
  | inp_block
  | time_embed
  | input_converter
  | code_converter
  | ar_input
  | ar_prior_intg
  | unconditioned_embedding
  | rotary_embeddings
  | intg
  | layers
  | outc
  deriving DecidableEq, Repr

/-- The `unused_params` list built by `forward` (lines 205-213): the
unconditioned embedding is recorded as unused exactly when the conditioned
branch was taken. -/
def forwardUnusedParams (conditioning_free : Bool) : List ParamRef :=
  if conditioning_free then [] else [ParamRef.unconditioned_embedding]

/-- The parameters used by the tensor computation on the active path of
`forward` (lines 206-225): the code-embedding source selected by the branch,
then the trunk (time embedding, input block, rotary table, fusion, layer
stack, output head). -/
def forwardActiveParams (ar_prior conditioning_free precomputed : Bool) :
    List ParamRef :=
  (if conditioning_free then [ParamRef.unconditioned_embedding]
   else if precomputed then []
   else if ar_prior then [ParamRef.ar_input, ParamRef.ar_prior_intg]
   else [ParamRef.input_converter, ParamRef.code_converter]) ++
  [ParamRef.time_embed, ParamRef.inp_block, ParamRef.rotary_embeddings,
   ParamRef.intg, ParamRef.layers, ParamRef.outc]

/-- All parameters participating in the output's computation graph: the active
path plus the zero-weighted terms of lines 227-231. -/
def forwardGraphParams (ar_prior conditioning_free precomputed : Bool) :
    List ParamRef :=
  forwardActiveParams ar_prior conditioning_free precomputed ++
    forwardUnusedParams conditioning_free

/-! ## Quantizer temperature schedule
`TransformerDiffusionWithQuantizer.update_for_step` (lines 251-257). -/

/-- `update_for_step` (lines 251-257): `qstep = max(0, step - freeze)` is the
truncated subtraction `step - freeze` on `ℕ`; the temperature is
`max(maxT * d ^ qstep, minT)`.  The max/min gumbel temperatures are fixed to
4 and 1/2 at construction (lines 246-247); the decay rate `d` is
Modelled from the spec: `MusicQuantizer2.gumbel_temperature_decay` is not in
view, the spec describes an exponential decay between the max and the min. -/
def updateTemperature (maxT minT d : ℚ) (freeze_quantizer_until step : ℕ) : ℚ :=
  max (maxT * d ^ (step - freeze_quantizer_until)) minT

/-! ## Multi-VQVAE channel partitioning
`TransformerDiffusionWithMultiPretrainedVqvae.forward` (lines 433-444).
The channel axis of `truth_mel` is embedded as a list of channels. -/

/-- `partition_size = truth_mel.shape[1] // len(self.quantizers)` (line 436). -/
def partitionSize (C N : ℕ) : ℕ := C / N

/-- The slice `truth_mel[:, i*partition_size:(i+1)*partition_size]`
(line 438), on the channel axis. -/
def melPartition {α : Type} (mel : List α) (N i : ℕ) : List α :=
  (mel.drop (i * partitionSize mel.length N)).take (partitionSize mel.length N)

/-- The `proj` list built by the loop of lines 435-440: entry `i` is codec
`i`'s projection of its channel band, in index order; line 441 concatenates
it along the feature axis. -/
def multiVqProj {α β : Type} (infer : ℕ → List α → β) (mel : List α) (N : ℕ) :
    List β :=
  (List.range N).map (fun i => infer i (melPartition mel N i))

/-! ## Shape-level model of `TransformerDiffusion.forward`

Shapes of the three-axis tensors flowing through `forward`; each shape
function mirrors the corresponding operation of the source.  The standard
framework shape semantics of `Conv1d` and `Linear` are used; the
x-transformers `Encoder` is shape-preserving (Modelled from the spec:
its source is outside this file's scope, the spec describes a self-attention
encoder applied at fixed width). -/

/-- A three-axis tensor shape `(b, d1, d2)`. -/
structure Shape3 where
  b : ℕ
  d1 : ℕ
  d2 : ℕ
  deriving DecidableEq, Repr

/-- Output length of a 1-D convolution of kernel `k`, padding `pad`,
stride `stride` on an input of length `L`. -/
def conv1dOutLen (k pad stride L : ℕ) : ℕ := (L + 2 * pad - k) / stride + 1

/-- Shape of applying `conv_nd(1, cin, cout, k, stride, pad)` to `(b, cin, L)`. -/
def conv1dShape (cout k pad stride : ℕ) (s : Shape3) : Shape3 :=
  ⟨s.b, cout, conv1dOutLen k pad stride s.d2⟩

/-- Shape of `.permute(0, 2, 1)`. -/
def permuteShape (s : Shape3) : Shape3 := ⟨s.b, s.d2, s.d1⟩

/-- Shape of `nn.Linear(din, dout)` applied along the last axis. -/
def linearShape (dout : ℕ) (s : Shape3) : Shape3 := ⟨s.b, s.d1, dout⟩

/-- Modelled from the spec: the x-transformers `Encoder` (`code_converter`,
`ar_prior_intg`) maps `(b, l, d)` to `(b, l, d)`. -/
def encoderShape (s : Shape3) : Shape3 := s

/-- Shape of `F.interpolate(t, size=n)` along the last axis. -/
def interpolateShape (n : ℕ) (s : Shape3) : Shape3 := ⟨s.b, s.d1, n⟩

/-- Shape of `torch.cat([s, t], dim=-1)`. -/
def catLastShape (s t : Shape3) : Shape3 := ⟨s.b, s.d1, s.d2 + t.d2⟩

/-- Shape of `ConcatAttentionBlock.forward` (lines 73-78): the grown features
are projected back to `trunk_dim` and added to the input residual. -/
def concatAttentionBlockShape (trunk : ℕ) (s : Shape3) : Shape3 :=
  ⟨s.b, s.d1, trunk⟩

/-- The constructor configuration of `TransformerDiffusion` (lines 85-105)
relevant to shapes. -/
structure TDConfig where
  prenet_channels : ℕ
  model_channels : ℕ
  num_layers : ℕ
  in_channels : ℕ
  input_vec_dim : ℕ
  out_channels : ℕ

/-- Shape of `timestep_independent` (lines 187-199): linear conversion to
`prenet_channels`, encoder, then nearest-interpolation of the sequence axis
to `expected_seq_len` (the `torch.where` of lines 193-196 is
shape-preserving). -/
def timestepIndependentShape (cfg : TDConfig) (prior : Shape3)
    (expected_seq_len : ℕ) : Shape3 :=
  let ce := linearShape cfg.prenet_channels prior
  let ce := encoderShape ce
  permuteShape (interpolateShape expected_seq_len (permuteShape ce))

/-- Shape of `TransformerDiffusion.forward` (lines 201-233) on a successful
call: `x : (b, in_channels, L)`, `codes : (b, l_codes, input_vec_dim)`. -/
def forwardShape (cfg : TDConfig) (x codes : Shape3)
    (conditioning_free : Bool) : Shape3 :=
  let code_emb :=
    if conditioning_free then (⟨x.b, x.d2, cfg.prenet_channels⟩ : Shape3)
    else timestepIndependentShape cfg codes x.d2
  let xp := permuteShape (conv1dShape cfg.prenet_channels 3 1 1 x)
  let xi := linearShape cfg.model_channels (catLastShape xp code_emb)
  let xl := (List.range cfg.num_layers).foldl
    (fun s _ => concatAttentionBlockShape cfg.model_channels s) xi
  conv1dShape cfg.out_channels 3 1 1 (permuteShape xl)

/-- A concrete configuration for exhibiting `forwardShape` runs. -/
def sampleConfig : TDConfig where
  prenet_channels := 8
  model_channels := 10
  num_layers := 3
  in_channels := 3
  input_vec_dim := 5
  out_channels := 6

/-! ## `ConcatAttentionBlock` at initialization (lines 64-78)

The trunk tensor is a function from an abstract position index (batch and
sequence collapsed) to a feature vector; `prenorm`, `block1` and `block2` are
abstract functions whose widths follow the source (`SubBlock` concatenates
`contraction_dim` twice per application, lines 54-61). -/

/-- `nn.Linear(n, m, bias=False)` applied to one feature vector. -/
def linearNoBias {m n : ℕ} (W : Fin m → Fin n → ℚ) (v : Fin n → ℚ) :
    Fin m → ℚ :=
  fun j => ∑ k : Fin n, W j k * v k

/-- The abstract submodules of one `ConcatAttentionBlock` (lines 64-71):
`prenorm` is the timestep-modulated `RMSScaleShiftNorm`, `block1` and
`block2` the two `SubBlock`s (growing the width by `2*c` each), `outW` the
weight of `self.out = nn.Linear(contraction_dim*4, trunk_dim, bias=False)`. -/
structure CABModel (Pos Emb Rot : Type) (trunk c : ℕ) where
  prenorm : (Pos → Fin trunk → ℚ) → Emb → (Pos → Fin trunk → ℚ)
  block1 : (Pos → Fin trunk → ℚ) → Rot → (Pos → Fin (trunk + 2 * c) → ℚ)
  block2 : (Pos → Fin (trunk + 2 * c) → ℚ) → Rot → (Pos → Fin (trunk + 4 * c) → ℚ)
  outW : Fin trunk → Fin (4 * c) → ℚ

/-- The slice `h[:, :, x.shape[-1]:]` of line 77: the last `4*c` features of
the grown width `trunk + 4*c`. -/
def sliceFromTrunk {trunk c : ℕ} (h : Fin (trunk + 4 * c) → ℚ) :
    Fin (4 * c) → ℚ :=
  fun k => h ⟨trunk + k.val, by omega⟩

/-- `ConcatAttentionBlock.forward` (lines 73-78). -/
def cabForward {Pos Emb Rot : Type} {trunk c : ℕ}
    (M : CABModel Pos Emb Rot trunk c) (x : Pos → Fin trunk → ℚ)
    (timestep_emb : Emb) (rotary_emb : Rot) : Pos → Fin trunk → ℚ :=
  let h1 := M.prenorm x timestep_emb
  let h2 := M.block1 h1 rotary_emb
  let h3 := M.block2 h2 rotary_emb
  fun p j => linearNoBias M.outW (sliceFromTrunk (h3 p)) j + x p j

/-- The zero initialization `self.out.weight.data.zero_()` of line 71. -/
def cabInitOutW (trunk c : ℕ) : Fin trunk → Fin (4 * c) → ℚ := fun _ _ => 0

/-- 1-D convolution with explicit weight and bias, stride 1; the caller
supplies the input already extended by zero outside its support, as torch's
zero padding does. -/
def conv1d {cin cout k : ℕ} (w : Fin cout → Fin cin → Fin k → ℚ)
    (b : Fin cout → ℚ) (pad : ℕ) (x : Fin cin → ℤ → ℚ) : Fin cout → ℤ → ℚ :=
  fun o t => b o + ∑ i : Fin cin, ∑ j : Fin k, w o i j * x i (t + j.val - pad)

/-- Modelled from the spec: `zero_module` (from `models.diffusion.nn`, outside
this file's scope) zeroes every parameter of the final output convolution of
lines 161-165, giving a zero-initialized convolution. -/
def zeroConvWeight (cin cout k : ℕ) : Fin cout → Fin cin → Fin k → ℚ :=
  fun _ _ _ => 0

/-- Modelled from the spec: the bias of the zero-initialized final output
convolution. -/
def zeroConvBias (cout : ℕ) : Fin cout → ℚ := fun _ => 0

/-- A concrete `CABModel` for exhibiting runs, with the zero-initialized
output weight of line 71. -/
def cabSample : CABModel Unit Unit Unit 2 1 where
  prenorm := fun x _ => x
  block1 := fun x _ => fun p k => if h : k.val < 2 then x p ⟨k.val, h⟩ else 1
  block2 := fun x _ => fun p k => if h : k.val < 4 then x p ⟨k.val, h⟩ else 1
  outW := cabInitOutW 2 1

/-! ## Per-element conditioning dropout (lines 192-198), indexed tensors

For the per-batch-element mutual-exclusivity invariant the tensors are taken
concretely as functions of (batch, sequence, feature) indices. -/

/-- Lines 193-196 with indices: the mask `torch.rand((b,1,1)) < p` is the
random draw `rand i` compared against `p`, broadcast over the sequence and
feature axes; `uncond` is `self.unconditioned_embedding.repeat(b,1,1)`
(constant over batch and sequence). -/
def maskedCodeEmb (training : Bool) (p : ℚ) (rand : ℕ → ℚ) (uncond : ℕ → ℚ)
    (code_emb : ℕ → ℕ → ℕ → ℚ) : ℕ → ℕ → ℕ → ℚ :=
  if training = true ∧ 0 < p then
    fun i s f => if rand i < p then uncond f else code_emb i s f
  else code_emb

/-- `F.interpolate(mode=nearest)` along the sequence axis from source length
`sl` to target length `L`: target position `s` reads source position
`s * sl / L`. -/
def interpolateNearestIdx (sl L : ℕ) (t : ℕ → ℕ → ℕ → ℚ) : ℕ → ℕ → ℕ → ℚ :=
  fun i s f => t i (s * sl / L) f

/-! ## `freeze_except_code_converters` (lines 167-174)

The constructor first freezes every parameter (marking it `DO_NOT_TRAIN`),
then walks the list `[self.input_converter and self.code_converter]` and
unfreezes the parameters of its members.  Python's `and` on two objects
returns the second when the first is truthy, and `nn.Module` instances are
truthy, so that list is `[self.code_converter]`. -/

/-- The owner module of a parameter of `TransformerDiffusion`. -/
inductive Owner
  | input_converter
  | code_converter
  | other
  deriving DecidableEq, Repr

/-- The per-parameter training state: `requires_grad` and whether the
`DO_NOT_TRAIN` marker attribute is present. -/
structure PState where
  requires_grad : Bool
  do_not_train : Bool
  deriving DecidableEq, Repr

/-- Python `and` on two objects: the first if it is falsy, else the second. -/
def pyAnd {M : Type} (truthy : M → Bool) (a b : M) : M :=
  if truthy a then b else a

/-- `nn.Module` defines no falsiness; module objects are truthy. -/
def moduleTruthy : Owner → Bool := fun _ => true

/-- The members of `[self.input_converter and self.code_converter]`
(line 171). -/
def unfreezeList : List Owner :=
  [pyAnd moduleTruthy Owner.input_converter Owner.code_converter]

/-- The parameter state after the `freeze_except_code_converters` block of
lines 167-174: lines 168-170 freeze and mark every parameter; lines 171-174
then unfreeze and unmark the parameters of each member of `unfreezeList`. -/
def freezeExceptCodeConverters : Owner → PState :=
  fun o =>
    let frozen : PState := ⟨false, true⟩
    if unfreezeList.contains o then ⟨true, false⟩ else frozen

/-! ## Theorems -/

/-- C1: whenever `precomputed_code_embeddings` is supplied together with
`codes` or `conditioning_input`, `forward` raises the assertion error of
lines 202-203 before any tensor computation; when
`precomputed_code_embeddings` is `None`, no assertion error is ever raised,
whatever the other arguments. -/
theorem forward_assert_guard {α : Type} (M : DiffModel α) (x ts : α)
    (codes ci pre : Option α) (cf : Bool) :
    (pre.isSome = true ∧ (codes.isSome = true ∨ ci.isSome = true) →
      forward M x ts codes ci pre cf = .error .assertionError) ∧
    (pre = none →
      forward M x ts codes ci pre cf ≠ .error .assertionError) := by
  constructor
  · rintro ⟨h1, h2⟩
    have hg : (pre.isSome && !(codes.isNone && ci.isNone)) = true := by
      rcases h2 with h2 | h2 <;> cases codes <;> cases ci <;> simp_all
    unfold forward
    exact if_pos hg
  · intro hpre
    subst hpre
    cases cf <;> cases codes <;> simp [forward]

/-- Witness for `forward_assert_guard` at a concrete model and arguments. -/
theorem forward_assert_guard_witness :
    forward trivialModel 0 0 (some 1) none (some 2) false =
      .error .assertionError ∧
    forward trivialModel 0 0 (some 1) none none false ≠
      .error .assertionError :=
  ⟨(forward_assert_guard trivialModel 0 0 (some 1) none (some 2) false).1
      ⟨rfl, Or.inl rfl⟩,
   (forward_assert_guard trivialModel 0 0 (some 1) none none false).2 rfl⟩

/-- C4: two successful calls to `forward` with `conditioning_free = true`
that agree on the input, the timesteps and the model, but differ arbitrarily
in `codes`, `conditioning_input` and `precomputed_code_embeddings`, return
equal outputs: the unconditioned branch of lines 206-207 ignores all three. -/
theorem conditioning_free_output_independent {α : Type} (M : DiffModel α)
    (x ts : α) (codes1 ci1 pre1 codes2 ci2 pre2 : Option α) (o1 o2 : α)
    (h1 : forward M x ts codes1 ci1 pre1 true = .ok o1)
    (h2 : forward M x ts codes2 ci2 pre2 true = .ok o2) : o1 = o2 := by
  unfold forward at h1 h2
  by_cases g1 : (pre1.isSome && !(codes1.isNone && ci1.isNone)) = true
  · rw [if_pos g1] at h1; cases h1
  · rw [if_neg g1] at h1
    by_cases g2 : (pre2.isSome && !(codes2.isNone && ci2.isNone)) = true
    · rw [if_pos g2] at h2; cases h2
    · rw [if_neg g2] at h2
      injection h1 with e1
      injection h2 with e2
      exact e1.symm.trans e2

/-- Witness for `conditioning_free_output_independent`: two concrete calls
differing in their conditioning arguments produce the same output. -/
theorem conditioning_free_output_independent_witness :
    forward trivialModel 0 0 (some 1) none none true = .ok (0 : ℤ) ∧
    forward trivialModel 0 0 (some 2) (some 3) none true = .ok (0 : ℤ) ∧
    (0 : ℤ) = 0 :=
  ⟨rfl, rfl,
   conditioning_free_output_independent trivialModel 0 0
     (some 1) none none (some 2) (some 3) none 0 0 rfl rfl⟩

/-- C2 counterexample: on a call with `conditioning_free = True` the
`unused_params` list of lines 205-213 is empty, so the parameters of the
unused code-conversion path (`input_converter` / `code_converter`) contribute
no zero-weighted term: they do not participate in the output's computation
graph at all. -/
theorem conditioning_free_no_unused_param_terms :
    forwardUnusedParams true = [] ∧
    ParamRef.input_converter ∉ forwardGraphParams false true false ∧
    ParamRef.code_converter ∉ forwardGraphParams false true false := by
  decide

/-- C2 amended: the only zero-weighted term ever added to the output is the
one for the unconditioned embedding, recorded exactly when the conditioned
branch is taken (`conditioning_free = False`); with
`conditioning_free = True` the `unused_params` list is empty and the unused
code-conversion parameters (`input_converter` / `code_converter`, or
`ar_input` / `ar_prior_intg`) contribute no term to the output. -/
theorem unused_param_terms_uncond_only (ar_prior precomputed : Bool) :
    forwardUnusedParams false = [ParamRef.unconditioned_embedding] ∧
    forwardUnusedParams true = [] ∧
    ParamRef.input_converter ∉ forwardGraphParams ar_prior true precomputed ∧
    ParamRef.code_converter ∉ forwardGraphParams ar_prior true precomputed ∧
    ParamRef.ar_input ∉ forwardGraphParams ar_prior true precomputed ∧
    ParamRef.ar_prior_intg ∉ forwardGraphParams ar_prior true precomputed := by
  cases ar_prior <;> cases precomputed <;> decide

/-- Helper: the layer-stack fold preserves the trunk shape. -/
theorem foldl_cab_shape (m b l n : ℕ) :
    (List.range n).foldl (fun s _ => concatAttentionBlockShape m s)
      ⟨b, l, m⟩ = (⟨b, l, m⟩ : Shape3) := by
  induction n with
  | zero => rfl
  | succ k ih => rw [List.range_succ, List.foldl_append, ih]; rfl

/-- C3: on a valid input of shape `(b, in_channels, L)` (with `L ≥ 1`),
`forward` returns a tensor of shape `(b, out_channels, L)`: the batch and
sequence axes of the input are preserved. -/
theorem forward_shape_correct (cfg : TDConfig) (b L : ℕ) (hL : 1 ≤ L)
    (codes : Shape3) (cf : Bool) :
    forwardShape cfg ⟨b, cfg.in_channels, L⟩ codes cf =
      ⟨b, cfg.out_channels, L⟩ := by
  have hconv : conv1dOutLen 3 1 1 L = L := by unfold conv1dOutLen; omega
  cases cf <;>
    simp [forwardShape, timestepIndependentShape, linearShape, encoderShape,
      permuteShape, interpolateShape, catLastShape, conv1dShape, hconv,
      foldl_cab_shape]

/-- Witness for `forward_shape_correct` at a concrete configuration. -/
theorem forward_shape_correct_witness :
    forwardShape sampleConfig ⟨2, 3, 4⟩ ⟨2, 7, 5⟩ false = ⟨2, 6, 4⟩ :=
  forward_shape_correct sampleConfig 2 4 (by norm_num) ⟨2, 7, 5⟩ false

/-- C5: with the zero-initialized output projection of line 71,
`ConcatAttentionBlock.forward` is the identity on its trunk input, whatever
`prenorm`, the two `SubBlock`s, the timestep embedding and the rotary table
do; and the zero-initialized final output convolution of lines 161-165
contributes zero for every input. -/
theorem concat_block_zero_init_identity {Pos Emb Rot : Type} {trunk c : ℕ}
    (M : CABModel Pos Emb Rot trunk c) (hW : M.outW = cabInitOutW trunk c)
    (x : Pos → Fin trunk → ℚ) (e : Emb) (r : Rot)
    {cin cout k : ℕ} (pad : ℕ) (xin : Fin cin → ℤ → ℚ) :
    cabForward M x e r = x ∧
    conv1d (zeroConvWeight cin cout k) (zeroConvBias cout) pad xin =
      fun _ _ => 0 := by
  constructor
  · funext p j
    simp [cabForward, linearNoBias, hW, cabInitOutW]
  · funext o t
    simp [conv1d, zeroConvWeight, zeroConvBias]

/-- Witness for `concat_block_zero_init_identity` at a concrete block. -/
theorem concat_block_zero_init_identity_witness :
    cabForward cabSample (fun _ _ => (3 : ℚ)) () () = (fun _ _ => (3 : ℚ)) ∧
    conv1d (zeroConvWeight 2 3 3) (zeroConvBias 3) 1 (fun _ _ => (5 : ℚ)) =
      fun _ _ => 0 :=
  concat_block_zero_init_identity cabSample rfl (fun _ _ => 3) () () 1
    (fun _ _ => 5)

/-- C6: `update_for_step` keeps the temperature at the configured maximum for
every step up to the freeze threshold (given `0 ≤ minT ≤ maxT`,
`0 ≤ d ≤ 1`); past it the temperature is monotonically non-increasing in the
step and never falls below the configured minimum. -/
theorem update_for_step_temperature (maxT minT d : ℚ)
    (freeze_quantizer_until : ℕ) (hmin : 0 ≤ minT) (hmm : minT ≤ maxT)
    (hd0 : 0 ≤ d) (hd1 : d ≤ 1) :
    (∀ s, s ≤ freeze_quantizer_until →
      updateTemperature maxT minT d freeze_quantizer_until s = maxT) ∧
    (∀ s1 s2, s1 ≤ s2 →
      updateTemperature maxT minT d freeze_quantizer_until s2 ≤
        updateTemperature maxT minT d freeze_quantizer_until s1) ∧
    (∀ s, minT ≤ updateTemperature maxT minT d freeze_quantizer_until s) := by
  refine ⟨?_, ?_, ?_⟩
  · intro s hs
    have hz : s - freeze_quantizer_until = 0 := Nat.sub_eq_zero_of_le hs
    simp [updateTemperature, hz, max_eq_left hmm]
  · intro s1 s2 h
    have hpow : d ^ (s2 - freeze_quantizer_until) ≤
        d ^ (s1 - freeze_quantizer_until) :=
      pow_le_pow_of_le_one hd0 hd1 (Nat.sub_le_sub_right h _)
    exact max_le_max (mul_le_mul_of_nonneg_left hpow (hmin.trans hmm)) le_rfl
  · intro s
    exact le_max_right _ _

/-- Witness for `update_for_step_temperature` with the configured max 4 and
min 1/2 of lines 246-247 and decay 1/2. -/
theorem update_for_step_temperature_witness :
    updateTemperature 4 (1/2) (1/2) 3 2 = 4 ∧
    updateTemperature 4 (1/2) (1/2) 3 10 ≤ updateTemperature 4 (1/2) (1/2) 3 5 ∧
    (1/2 : ℚ) ≤ updateTemperature 4 (1/2) (1/2) 3 100 := by
  have h := update_for_step_temperature 4 (1/2) (1/2) 3 (by norm_num)
    (by norm_num) (by norm_num) (by norm_num)
  exact ⟨h.1 2 (by norm_num), h.2.1 5 10 (by norm_num), h.2.2 100⟩

/-- C7: when the codec count `N` divides the channel count, the multi-VQVAE
partition splits the reference into `N` contiguous bands of equal size
`C / N`, codec `i` receiving exactly channels `i*(C/N)` through
`(i+1)*(C/N)`; every channel belongs to exactly one band; and the per-codec
projections appear in `proj` in codec index order `0..N-1`. -/
theorem multi_vqvae_partition_exact {α β : Type} (infer : ℕ → List α → β)
    (mel : List α) (N : ℕ) (hN : 0 < N) (hdvd : N ∣ mel.length) :
    (∀ i, i < N →
      (melPartition mel N i).length = partitionSize mel.length N) ∧
    (∀ i j, i < N → j < partitionSize mel.length N →
      (melPartition mel N i)[j]? =
        mel[i * partitionSize mel.length N + j]?) ∧
    (∀ ch, ch < mel.length → ∃! i, i < N ∧
      i * partitionSize mel.length N ≤ ch ∧
      ch < (i + 1) * partitionSize mel.length N) ∧
    (∀ i, i < N →
      (multiVqProj infer mel N)[i]? = some (infer i (melPartition mel N i))) := by
  obtain ⟨ps, hps⟩ := hdvd
  have hps2 : partitionSize mel.length N = ps := by
    simp [partitionSize, hps, Nat.mul_div_cancel_left ps hN]
  refine ⟨?_, ?_, ?_, ?_⟩
  · intro i hi
    have hle : i * ps + ps ≤ mel.length := by
      rw [hps]
      calc i * ps + ps = (i + 1) * ps := by ring
      _ ≤ N * ps := Nat.mul_le_mul_right ps hi
    rw [hps2, melPartition, hps2, List.length_take, List.length_drop]
    omega
  · intro i j hi hj
    rw [hps2] at hj ⊢
    rw [melPartition, hps2, List.getElem?_take_of_lt hj, List.getElem?_drop]
  · intro ch hch
    rw [hps2]
    have hpspos : 0 < ps := by
      rcases Nat.eq_zero_or_pos ps with h | h
      · subst h; simp [hps] at hch
      · exact h
    refine ⟨ch / ps, ⟨?_, ?_, ?_⟩, ?_⟩
    · rw [Nat.div_lt_iff_lt_mul hpspos]
      rw [hps] at hch
      omega
    · exact Nat.div_mul_le_self ch ps
    · calc ch = ch / ps * ps + ch % ps := (Nat.div_add_mod' ch ps).symm
        _ < ch / ps * ps + ps := Nat.add_lt_add_left (Nat.mod_lt ch hpspos) _
        _ = (ch / ps + 1) * ps := by ring
    · rintro i ⟨hi, hlo, hhi⟩
      exact (Nat.div_eq_of_lt_le hlo hhi).symm
  · intro i hi
    simp [multiVqProj, List.getElem?_map, List.getElem?_range hi]

/-- Witness for `multi_vqvae_partition_exact`: six channels, three codecs. -/
theorem multi_vqvae_partition_exact_witness :
    (∀ i, i < 3 →
      (melPartition [10, 11, 12, 13, 14, 15] 3 i).length =
        partitionSize (6 : ℕ) 3) ∧
    (∀ i j, i < 3 → j < partitionSize (6 : ℕ) 3 →
      (melPartition [10, 11, 12, 13, 14, 15] 3 i)[j]? =
        [10, 11, 12, 13, 14, 15][i * partitionSize (6 : ℕ) 3 + j]?) ∧
    (∀ ch, ch < 6 → ∃! i, i < 3 ∧
      i * partitionSize (6 : ℕ) 3 ≤ ch ∧ ch < (i + 1) * partitionSize (6 : ℕ) 3) ∧
    (∀ i, i < 3 →
      (multiVqProj (fun i l => (i, l)) [10, 11, 12, 13, 14, 15] 3)[i]? =
        some (i, melPartition [10, 11, 12, 13, 14, 15] 3 i)) :=
  multi_vqvae_partition_exact (fun i l => (i, l)) [10, 11, 12, 13, 14, 15] 3
    (by norm_num) (by norm_num)

/-- C10: when the channel count is not divisible by the codec count, the
partition step still goes through with size `⌊C / N⌋`: every codec `i < N`
receives exactly channels `i*⌊C/N⌋` through `(i+1)*⌊C/N⌋` (a full-size
band), and the trailing `C mod N` channels (at positions `≥ N*⌊C/N⌋`) lie in
no codec's band. -/
theorem multi_vqvae_partition_floor {α : Type} (mel : List α) (N : ℕ)
    (hN : 0 < N) (hndvd : ¬ N ∣ mel.length) :
    (∀ i, i < N →
      (melPartition mel N i).length = partitionSize mel.length N) ∧
    (∀ i j, i < N → j < partitionSize mel.length N →
      (melPartition mel N i)[j]? =
        mel[i * partitionSize mel.length N + j]?) ∧
    (∀ ch, N * partitionSize mel.length N ≤ ch → ∀ i, i < N →
      ¬ (i * partitionSize mel.length N ≤ ch ∧
         ch < (i + 1) * partitionSize mel.length N)) := by
  set ps := partitionSize mel.length N with hps
  have hNps : N * ps ≤ mel.length := by
    rw [hps, partitionSize, mul_comm]
    exact Nat.div_mul_le_self mel.length N
  refine ⟨?_, ?_, ?_⟩
  · intro i hi
    have hle : i * ps + ps ≤ mel.length := by
      calc i * ps + ps = (i + 1) * ps := by ring
      _ ≤ N * ps := Nat.mul_le_mul_right ps hi
      _ ≤ mel.length := hNps
    simp [melPartition, ← hps, List.length_take, List.length_drop]
    omega
  · intro i j hi hj
    rw [melPartition, ← hps, List.getElem?_take_of_lt hj, List.getElem?_drop]
  · intro ch hch i hi
    rintro ⟨hlo, hhi⟩
    have : (i + 1) * ps ≤ N * ps := Nat.mul_le_mul_right ps hi
    omega

/-- Witness for `multi_vqvae_partition_floor`: seven channels, three codecs,
floor partition size two, trailing channel six untouched. -/
theorem multi_vqvae_partition_floor_witness :
    (∀ i, i < 3 →
      (melPartition [10, 11, 12, 13, 14, 15, 16] 3 i).length =
        partitionSize (7 : ℕ) 3) ∧
    (∀ i j, i < 3 → j < partitionSize (7 : ℕ) 3 →
      (melPartition [10, 11, 12, 13, 14, 15, 16] 3 i)[j]? =
        [10, 11, 12, 13, 14, 15, 16][i * partitionSize (7 : ℕ) 3 + j]?) ∧
    (∀ ch, 3 * partitionSize (7 : ℕ) 3 ≤ ch → ∀ i, i < 3 →
      ¬ (i * partitionSize (7 : ℕ) 3 ≤ ch ∧
         ch < (i + 1) * partitionSize (7 : ℕ) 3)) :=
  multi_vqvae_partition_floor [10, 11, 12, 13, 14, 15, 16] 3 (by norm_num)
    (by decide)

/-- C8: in training mode with a positive unconditioned percentage, the code
embedding `timestep_independent` produces (masking of lines 193-196 followed
by the nearest-interpolation of line 198) is, per batch element, either
entirely the unconditioned embedding or entirely the interpolated real code
embedding — never a mixture — and the replacement decision depends only on
the batch index. -/
theorem timestep_independent_uncond_exclusive (p : ℚ) (hp : 0 < p)
    (rand uncond : ℕ → ℚ) (code_emb : ℕ → ℕ → ℕ → ℚ) (sl L : ℕ) :
    ∀ i,
      (∀ s f, interpolateNearestIdx sl L
          (maskedCodeEmb true p rand uncond code_emb) i s f = uncond f) ∨
      (∀ s f, interpolateNearestIdx sl L
          (maskedCodeEmb true p rand uncond code_emb) i s f =
        interpolateNearestIdx sl L code_emb i s f) := by
  intro i
  rw [maskedCodeEmb, if_pos ⟨rfl, hp⟩]
  by_cases h : rand i < p
  · left
    intro s f
    simp [interpolateNearestIdx, h]
  · right
    intro s f
    simp [interpolateNearestIdx, h]

/-- Witness for `timestep_independent_uncond_exclusive` at concrete tensors:
percentage 1/10, the draw for batch element 0 below it, all others above. -/
theorem timestep_independent_uncond_exclusive_witness :
    ((∀ s f, interpolateNearestIdx 2 4
        (maskedCodeEmb true (1/10) (fun n => (n : ℚ)) (fun _ => 7)
          (fun _ _ _ => 9)) 0 s f = 7) ∨
     (∀ s f, interpolateNearestIdx 2 4
        (maskedCodeEmb true (1/10) (fun n => (n : ℚ)) (fun _ => 7)
          (fun _ _ _ => 9)) 0 s f =
       interpolateNearestIdx 2 4 (fun _ _ _ => (9 : ℚ)) 0 s f)) ∧
    ((∀ s f, interpolateNearestIdx 2 4
        (maskedCodeEmb true (1/10) (fun n => (n : ℚ)) (fun _ => 7)
          (fun _ _ _ => 9)) 1 s f = 7) ∨
     (∀ s f, interpolateNearestIdx 2 4
        (maskedCodeEmb true (1/10) (fun n => (n : ℚ)) (fun _ => 7)
          (fun _ _ _ => 9)) 1 s f =
       interpolateNearestIdx 2 4 (fun _ _ _ => (9 : ℚ)) 1 s f)) :=
  ⟨timestep_independent_uncond_exclusive (1/10) (by norm_num)
     (fun n => (n : ℚ)) (fun _ => 7) (fun _ _ _ => 9) 2 4 0,
   timestep_independent_uncond_exclusive (1/10) (by norm_num)
     (fun n => (n : ℚ)) (fun _ => 7) (fun _ _ _ => 9) 2 4 1⟩

/-- C9: after `freeze_except_code_converters` runs, only `code_converter`'s
parameters have `requires_grad = True`; `input_converter`'s parameters (and
every other parameter) remain frozen with the `DO_NOT_TRAIN` marker, because
the Python expression `self.input_converter and self.code_converter`
evaluates to `self.code_converter`. -/
theorem freeze_unfreezes_only_code_converter :
    freezeExceptCodeConverters Owner.code_converter =
      ⟨true, false⟩ ∧
    freezeExceptCodeConverters Owner.input_converter =
      ⟨false, true⟩ ∧
    freezeExceptCodeConverters Owner.other = ⟨false, true⟩ := by
  decide

end TD12
